import Mathlib

/-!
Verification development for the f150-mechanic conversational orchestration
engine.  The Python sources under `src/` are embedded shallowly:

* messages, tool calls and response metadata become inductive data;
* each LangGraph node function becomes a pure Lean function from the graph
  state to a partial state update (LangGraph appends `messages` updates and
  overwrites scalar channels, which `applyUpdate` mirrors);
* the external collaborators (Ollama completion service, FAISS vector store,
  Brave web search) become oracle functions packaged in environment records;
* Python strings are Lean `String`s; the helpers below reproduce the exact
  `lower`/`strip`/`replace`/`join` semantics used by the sources.

Console printing (telemetry, progress bars) has no state effect and is not
modelled.  Numeric rendering inside advisory strings uses `toString` of the
exact rational instead of Python float formatting; the band classification
itself is computed on exact rationals.
-/

/-! ## Python string helpers -/

/-- ASCII whitespace recognised by Python `str.strip()` / `\s`. -/
def pySpace (c : Char) : Bool :=
  c = ' ' || c = '\t' || c = '\n' || c = '\r' || c = '\x0b' || c = '\x0c'

/-- Python `str.strip()` on a character list: drop whitespace from both ends. -/
def stripChars (l : List Char) : List Char :=
  ((l.dropWhile pySpace).reverse.dropWhile pySpace).reverse

/-- Python `str.strip()` producing a `String`. -/
def pyStrip (s : String) : String := ⟨stripChars s.data⟩

/-- Python `str.lower()` (ASCII case fold, which covers every string the
sources compare). -/
def pyLower (s : String) : String := ⟨s.data.map Char.toLower⟩

/-- Substring test, Python `needle in hay`. -/
def listContains (needle : List Char) : List Char → Bool
  | [] => needle.isPrefixOf []
  | c :: t => needle.isPrefixOf (c :: t) || listContains needle t

/-- Python `hay.find(needle) >= 0` at `String` level. -/
def pyContains (hay needle : String) : Bool :=
  listContains needle.data hay.data

/-- Python `str.replace` (all non-overlapping occurrences, left to right),
structurally recursive on a fuel that the wrapper instantiates with the
haystack length — enough fuel, since every step consumes at least one
character.  The sources only call it with a non-empty needle. -/
def pyReplaceFuel : Nat → List Char → List Char → List Char → List Char
  | 0, _, _, hay => hay
  | _, _, _, [] => []
  | fuel + 1, needle, repl, c :: t =>
    if needle ≠ [] ∧ needle.isPrefixOf (c :: t) then
      repl ++ pyReplaceFuel fuel needle repl (t.drop (needle.length - 1))
    else
      c :: pyReplaceFuel fuel needle repl t

/-- Python `str.replace` on character lists. -/
def pyReplaceList (needle repl hay : List Char) : List Char :=
  pyReplaceFuel hay.length needle repl hay

/-- Python `str.replace` on `String`s. -/
def pyReplace (hay needle repl : String) : String :=
  ⟨pyReplaceList needle.data repl.data hay.data⟩

/-- Python `"\n".join(parts)`. -/
def joinNl : List String → String
  | [] => ""
  | [s] => s
  | s :: rest => s ++ "\n" ++ joinNl rest

/-- Python slice `s[:n]`. -/
def pyTake (s : String) (n : Nat) : String := ⟨s.data.take n⟩

/-- Python slice `s[n:]`. -/
def pyDrop (s : String) (n : Nat) : String := ⟨s.data.drop n⟩

/-! ## Data model

`src/src/graph/state.py` defines `F150StateWithTokens` and its superset
`F150StateWithDualContext`; the single Lean record below carries the union of
their channels (every node reads and writes only the channels its Python
counterpart mentions). -/

/-- A LangChain tool call `{name, args, id}`.  Of `args` the sources read only
the `question` argument of `search_f150_manual` and the `query` argument of
`search_web`, so the embedding stores those two optional arguments. -/
structure ToolCall where
  name : String
  question : Option String := none
  query : Option String := none
  id : Option String := none
deriving DecidableEq, Repr

/-- Ollama response metadata; `token_tracking_node` reads
`prompt_eval_count` and `eval_count` with default `0`. -/
structure RespMeta where
  prompt_eval_count : Option Nat := none
  eval_count : Option Nat := none
deriving DecidableEq, Repr

/-- A conversation turn: `HumanMessage`, `AIMessage` (with tool calls and
response metadata), `ToolMessage` (with `tool_call_id`) or `SystemMessage`. -/
inductive Msg where
  | human (content : String)
  | ai (content : String) (tool_calls : List ToolCall) (metadata : RespMeta)
  | tool (content : String) (tool_call_id : String)
  | system (content : String)
deriving DecidableEq, Repr

/-- The text content of a turn. -/
def Msg.content : Msg → String
  | .human c => c
  | .ai c _ _ => c
  | .tool c _ => c
  | .system c => c

/-- Tool calls carried by a turn (`[]` for non-AI turns, which lack the
attribute in Python). -/
def Msg.toolCalls : Msg → List ToolCall
  | .ai _ tcs _ => tcs
  | _ => []

/-- Whether the turn is an `AIMessage` (Python `isinstance(m, AIMessage)`,
also `hasattr(m, 'tool_calls')`). -/
def Msg.isAi : Msg → Bool
  | .ai _ _ _ => true
  | _ => false

/-- Whether the turn is a `SystemMessage`. -/
def Msg.isSystem : Msg → Bool
  | .system _ => true
  | _ => false

/-- A retrieved chunk: `page_content` plus the `page` metadata entry
(`metadata.get('page', 'unknown')`). -/
structure Document where
  page_content : String
  page : Option Nat := none
deriving DecidableEq, Repr

/-- Rendering of the `page` metadata entry inside formatted excerpts. -/
def Document.pageStr (d : Document) : String :=
  match d.page with
  | some n => toString n
  | none => "unknown"

/-- The graph state (union of `F150StateWithTokens` and
`F150StateWithDualContext` from `src/src/graph/state.py`). -/
structure F150State where
  messages : List Msg := []
  rag_context : String := ""
  retrieved_documents : List Document := []
  total_tokens : Nat := 0
  total_prompt_tokens : Nat := 0
  total_completion_tokens : Nat := 0
  context_limit : Nat := 128000
  bypass_agent : Bool := false
deriving DecidableEq, Repr

/-- A partial state update returned by a node (a Python dict of channel
updates).  `none` means the key is absent from the dict. -/
structure Update where
  messages : List Msg := []
  rag_context : Option String := none
  retrieved_documents : Option (List Document) := none
  total_tokens : Option Nat := none
  total_prompt_tokens : Option Nat := none
  total_completion_tokens : Option Nat := none
  context_limit : Option Nat := none
  bypass_agent : Option Bool := none
deriving DecidableEq, Repr

/-- The empty update (Python `return {}`). -/
def emptyUpdate : Update := {}

/-- LangGraph channel semantics: `messages` uses the `add_messages` reducer
(append), every other channel is last-value (overwrite when present). -/
def applyUpdate (s : F150State) (u : Update) : F150State where
  messages := s.messages ++ u.messages
  rag_context := u.rag_context.getD s.rag_context
  retrieved_documents := u.retrieved_documents.getD s.retrieved_documents
  total_tokens := u.total_tokens.getD s.total_tokens
  total_prompt_tokens := u.total_prompt_tokens.getD s.total_prompt_tokens
  total_completion_tokens := u.total_completion_tokens.getD s.total_completion_tokens
  context_limit := u.context_limit.getD s.context_limit
  bypass_agent := u.bypass_agent.getD s.bypass_agent

/-! ## Pre-Filter (`src/src/utils/conversational_filter.py`) -/

/-- Characters matched by the trailing `[\s!.]*` of every conversational
pattern. -/
def fillChar (c : Char) : Bool := pySpace c || c = '!' || c = '.'

/-- Match one alternative of a pattern `^(alt|…)[\s!.]*$`: the text must be
the literal alternative followed only by fill characters. -/
def altThenFill (alt : String) (l : List Char) : Bool :=
  alt.data.isPrefixOf l && (l.drop alt.data.length).all fillChar

/-- Match `^(alt1|…)\s*(alt2|…)[\s!.]*$` (the combined
acknowledgment-plus-thanks pattern).  The second group's alternatives all
start with a non-space character, so the greedy `\s*` needs no backtracking. -/
def comboMatch (alts1 alts2 : List String) (l : List Char) : Bool :=
  alts1.any fun a =>
    a.data.isPrefixOf l &&
      (let rest := (l.drop a.data.length).dropWhile pySpace
       alts2.any fun b =>
         b.data.isPrefixOf rest && (rest.drop b.data.length).all fillChar)

def greetingAlts : List String := ["hi", "hello", "hey", "sup", "yo", "howdy"]

def thanksAlts : List String :=
  ["thank you", "thanks", "thx", "ty", "thank u", "tysm", "appreciate it"]

def ackAlts : List String :=
  ["great", "ok", "okay", "got it", "cool", "nice", "perfect", "awesome",
   "excellent"]

def comboFirstAlts : List String :=
  ["great", "ok", "okay", "cool", "nice", "perfect", "awesome"]

def comboThanksAlts : List String := ["thank you", "thanks", "thx"]

def farewellAlts : List String :=
  ["bye", "goodbye", "see you", "later", "cya", "take care"]

def affirmationAlts : List String := ["yes", "yeah", "yep", "yup", "sure", "alright"]

def negationAlts : List String := ["no", "nope", "nah"]

/-- `is_conversational_only(text)`: lower-case and strip the text, then try
each whole-message pattern of the closed taxonomy. -/
def is_conversational_only (text : String) : Bool :=
  let l := stripChars (pyLower text).data
  greetingAlts.any (altThenFill · l) ||
  thanksAlts.any (altThenFill · l) ||
  ackAlts.any (altThenFill · l) ||
  comboMatch comboFirstAlts comboThanksAlts l ||
  farewellAlts.any (altThenFill · l) ||
  affirmationAlts.any (altThenFill · l) ||
  negationAlts.any (altThenFill · l)

def respThank : String :=
  "You\x27re welcome! Let me know if you have any other questions about your F-150!"

def respGreat : String :=
  "Glad I could help! Feel free to ask anything else about your 2018 F-150."

def respOk : String :=
  "Great! Let me know if there\x27s anything else I can help with."

def respHi : String := "Hello! How can I help you with your 2018 F-150 today?"

def respHey : String := "Hey there! What can I help you with regarding your F-150?"

def respBye : String := "Goodbye! Come back anytime you have F-150 questions!"

def respYes : String := "Got it! Anything else you\x27d like to know?"

def respNo : String := "No problem! Let me know if you need anything."

def respDefault : String :=
  "You\x27re welcome! Feel free to ask if you have any questions about your 2018 F-150."

/-- `get_conversational_response(text)`: first keyword of the response map
(in insertion order) contained in the lower-cased, stripped text wins. -/
def get_conversational_response (text : String) : String :=
  let l := stripChars (pyLower text).data
  if listContains "thank".data l then respThank
  else if listContains "great".data l then respGreat
  else if listContains "ok".data l then respOk
  else if listContains "hi".data l then respHi
  else if listContains "hello".data l then respHi
  else if listContains "hey".data l then respHey
  else if listContains "bye".data l then respBye
  else if listContains "yes".data l then respYes
  else if listContains "no".data l then respNo
  else respDefault

/-- The domain-name customisation applied inside `pre_filter_node`
(`response_text.replace("F-150", dn).replace("2018 F-150", dn)` when the
domain name is non-empty and differs from `"F-150"`). -/
def customizeResponse (domainName response : String) : String :=
  if domainName ≠ "" ∧ domainName ≠ "F-150" then
    pyReplace (pyReplace response "F-150" domainName) "2018 F-150" domainName
  else
    response

/-- Last `HumanMessage` of the log, scanning from the end. -/
def lastHuman : List Msg → Option String
  | [] => none
  | m :: rest =>
    match lastHuman rest with
    | some c => some c
    | none =>
      match m with
      | .human c => some c
      | _ => none

/-- `pre_filter_node` from `create_conversational_filter_node(domain_name)`:
on a conversational-only last user turn, append the canned reply and set
`bypass_agent`; otherwise only clear `bypass_agent`. -/
def pre_filter_node (domainName : String) (s : F150State) : Update :=
  match lastHuman s.messages with
  | some t =>
    if is_conversational_only t then
      { messages := [.ai (customizeResponse domainName (get_conversational_response t)) [] {}],
        bypass_agent := some true }
    else
      { bypass_agent := some false }
  | none => { bypass_agent := some false }

/-! ## Context Tracker (`src/src/graph/token_tracking_node.py`) -/

/-- Last `AIMessage` of the log (every `AIMessage` has the
`response_metadata` attribute the Python loop tests for). -/
def lastAiMessage : List Msg → Option Msg
  | [] => none
  | m :: rest =>
    match lastAiMessage rest with
    | some a => some a
    | none => if m.isAi then some m else none

/-- `usage_percentage = (new_total_tokens / context_limit) * 100`, on exact
rationals. -/
def usagePercentage (totalTokens contextLimit : Nat) : ℚ :=
  ((totalTokens : ℚ) / (contextLimit : ℚ)) * 100

/-- `remaining_tokens = context_limit - new_total_tokens` (a Python `int`,
which may be negative). -/
def remainingTokens (totalTokens contextLimit : Nat) : ℤ :=
  (contextLimit : ℤ) - (totalTokens : ℤ)

/-- Suffix shared by every advisory: `({pct}%, {remaining} tokens remaining`. -/
def advisoryStats (pct : ℚ) (remaining : ℤ) : String :=
  "(" ++ toString pct ++ "%, " ++ toString remaining ++ " tokens remaining"

/-- The critical advisory text (usage at or above 95%). -/
def criticalAdvisory (pct : ℚ) (remaining : ℤ) : String :=
  "⚠️ CRITICAL: Context nearly full " ++ advisoryStats pct remaining ++
    "). Consider starting a new conversation."

/-- The warning advisory text (usage at or above 80%). -/
def warningAdvisory (pct : ℚ) (remaining : ℤ) : String :=
  "⚠️ WARNING: Context usage is high " ++ advisoryStats pct remaining ++ ")."

/-- The informational advisory text (usage at or above 60%). -/
def moderateAdvisory (pct : ℚ) (remaining : ℤ) : String :=
  "ℹ️ Context usage is moderate " ++ advisoryStats pct remaining ++ ")."

/-- `_get_warning_message(usage_percentage, remaining_tokens)`. -/
def _get_warning_message (pct : ℚ) (remaining : ℤ) : Option String :=
  if pct ≥ 95 then some (criticalAdvisory pct remaining)
  else if pct ≥ 80 then some (warningAdvisory pct remaining)
  else if pct ≥ 60 then some (moderateAdvisory pct remaining)
  else none

/-- `token_tracking_node` from `create_token_tracking_node(context_limit, …)`:
extract actual token counts from the last AI turn's Ollama metadata,
accumulate totals, and optionally append one advisory turn. -/
def token_tracking_node (contextLimit : Nat) (s : F150State) : Update :=
  match lastAiMessage s.messages with
  | none => emptyUpdate
  | some m =>
    let md := match m with
      | .ai _ _ md => md
      | _ => {}
    let promptTokens := md.prompt_eval_count.getD 0
    let completionTokens := md.eval_count.getD 0
    if promptTokens = 0 ∧ completionTokens = 0 then
      emptyUpdate
    else
      let newTotalPrompt := s.total_prompt_tokens + promptTokens
      let newTotalCompletion := s.total_completion_tokens + completionTokens
      let newTotalTokens := newTotalPrompt + newTotalCompletion
      let pct := usagePercentage newTotalTokens contextLimit
      let remaining := remainingTokens newTotalTokens contextLimit
      { messages :=
          match _get_warning_message pct remaining with
          | some w => [.system w]
          | none => [],
        total_tokens := some newTotalTokens,
        total_prompt_tokens := some newTotalPrompt,
        total_completion_tokens := some newTotalCompletion,
        context_limit := some contextLimit }

/-! ## Approval Gate (`src/src/utils/approval_node.py`) -/

/-- The Python value delivered by `Command(resume=…)` and returned by
`interrupt(...)`.  The node only tests `decision is False` and
`isinstance(decision, dict) and decision.get("approved") is False`, so the
embedding keeps booleans, dicts whose `approved` entry is a boolean or
absent, strings, and `None`. -/
inductive PyPrim where
  | bool (b : Bool)
  | str (s : String)
  | noneVal
deriving DecidableEq, Repr

/-- A resume payload: a primitive, or a dict whose `approved` entry (the only
key the node reads) holds a primitive or is absent. -/
inductive PyVal where
  | prim (p : PyPrim)
  | dictApproved (approved : Option PyPrim)
deriving DecidableEq, Repr

/-- The rejection test on line 79 of `approval_node.py`. -/
def isRejection : PyVal → Bool
  | .prim (.bool false) => true
  | .dictApproved (some (.bool false)) => true
  | _ => false

/-- The directive injected on rejection. -/
def rejectionDirective : String :=
  "[SYSTEM: The requested tool calls were not approved. Please respond to the user\x27s question directly without using tools.]"

/-- `approval_node` from `create_approval_node(enabled)`.  The
`interrupt(...)` suspension is modelled by taking the resume value
(`decision`) as an argument; the structured approval request it serialises
does not touch the state.  Reading `messages[-1]` requires a non-empty log,
which the caller guarantees; on an empty log the node is a passthrough here. -/
def approval_node (enabled : Bool) (decision : PyVal) (s : F150State) : Update :=
  if ¬enabled then emptyUpdate
  else
    match s.messages.getLast? with
    | Option.none => emptyUpdate
    | some last =>
      if ¬last.isAi ∨ last.toolCalls = [] then emptyUpdate
      else if isRejection decision then
        { messages := [.ai rejectionDirective [] {}] }
      else emptyUpdate

/-! ## Routers and graph wiring (`src/src/graph/f150_graph.py`) -/

/-- Node identifiers.  `pre_filter`, `agent`, `tools` and `token_tracker` are
the string node names of `create_f150_graph`; `approval_gate`,
`retrieval_agent` and `terminal` (END) name the remaining components of the
spec's control graph. -/
inductive NodeId where
  | pre_filter
  | agent
  | tools
  | token_tracker
  | approval_gate
  | retrieval_agent
  | terminal
deriving DecidableEq, Repr

/-- The nodes `create_f150_graph` adds to its `StateGraph`. -/
def f150GraphNodes : List NodeId :=
  [.pre_filter, .agent, .tools, .token_tracker]

/-- `should_bypass_agent`: route to END when the pre-filter set
`bypass_agent`, else to the agent. -/
def should_bypass_agent (s : F150State) : NodeId :=
  if s.bypass_agent then .terminal else .agent

/-- `should_continue`: after the agent, route to the tools node when the last
turn carries tool calls, else to the token tracker.  (Python reads
`messages[-1].tool_calls`; after the agent node the last turn is the AI
response just appended.) -/
def should_continue (s : F150State) : NodeId :=
  match s.messages.getLast? with
  | some last => if last.toolCalls ≠ [] then .tools else .token_tracker
  | Option.none => .token_tracker

/-- Modelled from the spec: no graph under `src/` wires the approval node, so
the repository contains no router for its successor.  Spec section 4.3 gives:
cleared tool calls (rejection) → Orchestrator; a call targeting the
manual-search capability → Retrieval Agent; otherwise → Tool Executor. -/
def routeAfterApproval (s : F150State) : NodeId :=
  match s.messages.getLast? with
  | some last =>
    if last.toolCalls = [] then .agent
    else if last.toolCalls.any (fun tc => tc.name = "search_f150_manual") then .retrieval_agent
    else .tools
  | Option.none => .agent

/-! ## Retrieval Agent (`src/src/graph/rag_agent_node.py`) -/

/-- Oracles for the retrieval agent: the FAISS store
(`similarity_search(query, k)`), the small RAG LLM (`llm.invoke` on a prompt
string, raising or returning the response content), and whether a store was
supplied to the factory. -/
structure RagEnv where
  hasStore : Bool := true
  search : String → Nat → List Document
  llm : String → Except Unit String

/-- The constrained rewrite prompt of `_reformulate_query`. -/
def reformulationPrompt (query : String) : String :=
  "Reformulate this search query for a Ford F-150 Owner\x27s Manual vector database.\n\nCRITICAL RULES:\n1. Return ONLY the reformulated query text (no explanations, no preambles)\n2. DO NOT include \"Ford\" or \"F-150\" (database is already F-150-specific)\n3. Extract core component/feature names and their attributes\n4. Remove conversational words (\"what\", \"how\", \"please\")\n5. Keep it under 10 words\n\nExamples:\n- \"What is fuse 33 for?\" → \"fuse 33 purpose amperage\"\n- \"How do I reset the oil light?\" → \"oil change indicator reset procedure\"\n- \"What\x27s the towing capacity?\" → \"maximum towing capacity\"\n- \"Where is the spare tire?\" → \"spare tire location access\"\n- \"How to check transmission fluid?\" → \"transmission fluid level check procedure\"\n\nQuery: \"" ++ query ++ "\"\nReformulated:"

/-- The preamble phrases stripped from a reformulation response. -/
def reformPreambles : List String :=
  ["here\x27s a reformulated query:",
   "reformulated query:",
   "here is the reformulated query:",
   "reformulated:"]

/-- Python `strip('"\'')`: drop double and single quotes from both ends. -/
def stripQuoteChars (l : List Char) : List Char :=
  let isQuote := fun c => c = '"' || c = '\x27'
  ((l.dropWhile isQuote).reverse.dropWhile isQuote).reverse

/-- Drop the first matching preamble (if any) from the cleaned response, then
strip whitespace and quotes — the `for preamble in preambles` loop with its
`break`. -/
def dropPreamble : List String → List Char → List Char
  | [], r => r
  | p :: ps, r =>
    if p.data.isPrefixOf (r.map Char.toLower) then
      stripQuoteChars (stripChars (r.drop p.data.length))
    else
      dropPreamble ps r

/-- `_reformulate_query(query, llm)`: ask the LLM for a rewrite; on any
exception fall back to the original query; strip whitespace and preambles;
fall back to the original query when the cleaned response is empty. -/
def _reformulate_query (llm : String → Except Unit String) (query : String) : String :=
  match llm (reformulationPrompt query) with
  | .error _ => query
  | .ok content =>
    let r := dropPreamble reformPreambles (stripChars content.data)
    if r = [] then query else ⟨r⟩

/-- The binary relevance-judgment prompt of `_assess_relevance`. -/
def assessmentPrompt (query excerpt : String) : String :=
  "Is this manual excerpt relevant to the query?\n\nQuery: \"" ++ query ++
    "\"\n\nExcerpt: \"" ++ excerpt ++ "\"\n\nAnswer ONLY \"YES\" or \"NO\":"

/-- One relevance judgment: `'yes' in response.content.lower()`, including
the document by default when the LLM call raises. -/
def acceptDoc (llm : String → Except Unit String) (query : String) (d : Document) : Bool :=
  match llm (assessmentPrompt query (pyTake d.page_content 500)) with
  | .ok r => listContains "yes".data (pyLower r).data
  | .error _ => true

/-- The accepted list built by the `for doc in documents[:10]` loop (before
the final truncation to five). -/
def acceptedDocs (llm : String → Except Unit String) (docs : List Document)
    (query : String) : List Document :=
  (docs.take 10).filter (acceptDoc llm query)

/-- `_assess_relevance(documents, query, llm)`: trust the top five from the
vector search; with more candidates, judge each of the first ten and keep the
first five accepted. -/
def _assess_relevance (llm : String → Except Unit String) (docs : List Document)
    (query : String) : List Document :=
  if docs = [] then []
  else if docs.length ≤ 5 then docs
  else (acceptedDocs llm docs query).take 5

def ragHeader : String := "=== RETRIEVED CONTEXT FROM F-150 MANUAL ===\n"

def ragFooter : String := "=== END OF RETRIEVED CONTEXT ===\n"

/-- The per-document blocks of `_format_rag_context` (`enumerate(documents, 1)`). -/
def excerptBlocks : Nat → List Document → List String
  | _, [] => []
  | i, d :: rest =>
    ("[Excerpt " ++ toString i ++ " - Page " ++ d.pageStr ++ "]\n" ++
      pyStrip d.page_content ++ "\n") :: excerptBlocks (i + 1) rest

/-- `_format_rag_context(documents)`. -/
def _format_rag_context (docs : List Document) : String :=
  if docs = [] then ""
  else joinNl (ragHeader :: (excerptBlocks 1 docs ++ [ragFooter]))

/-- First `search_f150_manual` call in a tool-call list. -/
def findSearchCall : List ToolCall → Option ToolCall
  | [] => none
  | tc :: rest => if tc.name = "search_f150_manual" then some tc else findSearchCall rest

/-- Helper for `_extract_rag_tool_call`, walking the already-reversed log. -/
def extractRagRev : List Msg → Option String × Option String
  | [] => (none, none)
  | m :: rest =>
    if m.isAi ∧ m.toolCalls ≠ [] then
      match findSearchCall m.toolCalls with
      | some tc => (some (tc.question.getD ""), some (tc.id.getD "unknown"))
      | none => extractRagRev rest
    else
      extractRagRev rest

/-- `_extract_rag_tool_call(messages)`: scan from the end for an AI turn with
tool calls and take its first `search_f150_manual` call's `question` and
`id`.  Returns `(None, None)` when no such call exists anywhere. -/
def _extract_rag_tool_call (messages : List Msg) : Option String × Option String :=
  extractRagRev messages.reverse

def noQueryError : String := "Error: No search query found"

def noStoreError : String := "Error: Manual not loaded"

def noRelevantInfo : String :=
  "No relevant information found in the F-150 Owner\x27s Manual for this query."

/-- The count-bearing acknowledgment appended as the tool-result turn. -/
def retrievedAck (n : Nat) : String :=
  "Retrieved " ++ toString n ++ " relevant sections from the manual."

/-- `agentic_rag_node`, instrumented with the ordered list of
`similarity_search` invocations `(query, k)` it issues. -/
def agenticRagRun (env : RagEnv) (s : F150State) : Update × List (String × Nat) :=
  let qt := _extract_rag_tool_call s.messages
  let query := qt.1.getD ""
  if query = "" then
    ({ messages := [.tool noQueryError
        (let t := qt.2.getD "unknown"; if t = "" then "unknown" else t)],
       rag_context := some "", retrieved_documents := some [] }, [])
  else
    let tid := qt.2.getD "unknown"
    if ¬env.hasStore then
      ({ messages := [.tool noStoreError tid],
         rag_context := some "", retrieved_documents := some [] }, [])
    else
      let reformulated := _reformulate_query env.llm query
      let relevantFirst := _assess_relevance env.llm (env.search reformulated 5) query
      let fallback := relevantFirst.length < 2 ∧ reformulated ≠ query
      let relevant :=
        if fallback then _assess_relevance env.llm (env.search query 8) query
        else relevantFirst
      let trace := (reformulated, 5) :: (if fallback then [(query, 8)] else [])
      if relevant = [] then
        ({ messages := [.tool noRelevantInfo tid],
           rag_context := some "", retrieved_documents := some [] }, trace)
      else
        ({ messages := [.tool (retrievedAck relevant.length) tid],
           rag_context := some (_format_rag_context relevant),
           retrieved_documents := some relevant }, trace)

/-- The state update of `agentic_rag_node` (the searches dropped). -/
def agentic_rag_node (env : RagEnv) (s : F150State) : Update :=
  (agenticRagRun env s).1

/-! ## Orchestrator / Chat Agent (`src/src/graph/chat_agent_node.py`) -/

/-- An `AIMessage` returned by `llm.invoke`. -/
structure AiResp where
  content : String
  tool_calls : List ToolCall := []
  metadata : RespMeta := {}
deriving DecidableEq, Repr

def AiResp.toMsg (r : AiResp) : Msg := .ai r.content r.tool_calls r.metadata

/-- Oracles for the chat agent: the tool-bound completion service and the
factory's `base_system_prompt` argument. -/
structure ChatEnv where
  complete : List Msg → AiResp
  basePrompt : String

/-- The instruction appended after the injected context. -/
def ragUsageNote : String :=
  "\n\nIMPORTANT: Use the retrieved context above to answer the user\x27s question accurately.\nReference page numbers when citing information from the manual."

/-- `_build_chat_prompt(messages, rag_context, base_system_prompt)`: one
ephemeral `SystemMessage` (base prompt plus, when non-empty, the RAG context)
followed by the history with any leading `SystemMessage` dropped. -/
def _build_chat_prompt (messages : List Msg) (ragContext basePrompt : String) : List Msg :=
  let systemContent :=
    if ragContext ≠ "" then basePrompt ++ "\n\n" ++ ragContext ++ ragUsageNote
    else basePrompt
  let history :=
    match messages with
    | m :: rest => if m.isSystem then rest else messages
    | [] => []
  .system systemContent :: history

/-- `chat_agent_node`: invoke the completion service on the context-injected
prompt and append only the assistant's turn. -/
def chat_agent_node (env : ChatEnv) (s : F150State) : Update :=
  { messages := [(env.complete (_build_chat_prompt s.messages s.rag_context env.basePrompt)).toMsg] }

/-! ## The wired graph (`src/src/graph/f150_graph.py`) and its tools -/

/-- Collaborator calls observable during one turn of `create_f150_graph`:
completion-service inferences, retrieval-index similarity searches, and web
searches. -/
inductive CallEvent where
  | llmCall
  | indexCall
  | webCall
deriving DecidableEq, Repr

/-- Oracles for the wired graph: the tool-bound LLM, the FAISS store (with
`hasStore` false when `create_f150_graph` received no vector store and the
manual-search tool answers with its load error), and the web-search tool's
returned text (its API handling is internal to the collaborator). -/
structure GraphEnv where
  complete : List Msg → AiResp
  hasStore : Bool := true
  search : String → Nat → List Document
  web : String → String

/-- The system message of `create_f150_graph` (lines 66-135). -/
def f150SystemPrompt : String :=
  "You are an expert on the 2018 Ford F-150 pickup truck with master\x27s level knowledge of the owner\x27s manual.\n\nYou have access to TWO search tools:\n1. search_f150_manual - Search the official 2018 F-150 Owner\x27s Manual\n2. search_web - Search the web for current information and real-world knowledge\n\nYour role is to help users understand their 2018 F-150 by answering questions about:\n- Vehicle features and controls\n- Maintenance schedules and procedures\n- Safety systems and warnings\n- Specifications and capacities\n- Troubleshooting and diagnostics\n- Fuse locations and purposes\n- Audio, climate, and infotainment systems\n\nCRITICAL - TOOL USAGE RULES (Follow STRICTLY):\n1. DO NOT call ANY tools for these messages (respond directly):\n   - Greetings: \"hello\", \"hi\", \"hey\"\n   - Thanks: \"thank you\", \"thanks\", \"thx\", \"appreciate it\"\n   - Acknowledgments: \"ok\", \"okay\", \"got it\", \"great\"\n   - Farewells: \"bye\", \"goodbye\", \"see you\"\n   - Off-topic questions unrelated to the F-150\n\n2. ONLY call tools when the user has a SPECIFIC F-150 question requiring information:\n   - \"What is the oil capacity?\" → USE search_f150_manual\n   - \"How do I reset the oil light?\" → USE search_f150_manual\n   - \"My engine is making noise\" → USE BOTH tools\n   - \"Great thank you\" → DO NOT use any tools, just respond warmly\n\nCONVERSATIONAL HANDLING:\n- For \"thank you\", \"thanks\", or similar → Respond directly: \"You\x27re welcome!\" or \"Happy to help!\"\n- For unrelated questions → Respond directly: \"I\x27m not sure I can help with that, but I\x27m here to assist with any questions or problems about your 2018 F-150!\"\n- NO TOOLS for conversational pleasantries\n\nTOOL SELECTION STRATEGY (Smart Routing):\n\nUse search_f150_manual for:\n- Specifications and capacities (towing, fuel, tire pressure, fluids)\n- Standard operating procedures (how to use features)\n- Feature explanations (what does this button do?)\n- Fuse diagrams and electrical system\n- Maintenance schedules from the manual\n- Safety warnings and official guidance\n\nUse search_web for:\n- Known issues, recalls, and service bulletins\n- Real-world troubleshooting tips\n- Common problems and community solutions\n- Product updates and firmware fixes\n- User experiences and reviews\n- Information not covered in the manual\n\nFor TROUBLESHOOTING PROBLEMS:\n- Start with search_f150_manual for official guidance\n- Then use search_web to find real-world fixes, known issues, and recalls\n- Combine both sources for comprehensive answers\n\nWhen answering questions:\n1. Choose the appropriate tool(s) based on the question type\n2. BEFORE using a tool, tell the user what you\x27re doing:\n   - Before search_f150_manual: \"Let me check the owner\x27s manual...\"\n   - Before search_web: \"Let me search online for current information...\"\n3. For problems, use BOTH tools to provide comprehensive help\n4. Provide detailed information and cite your sources\n5. Use clear, helpful language that a vehicle owner can understand\n6. Include relevant safety warnings when appropriate\n7. Reference page numbers from manual searches\n8. Distinguish between official manual guidance and web-sourced information\n\nAlways prioritize user safety and proper vehicle operation."

/-- `call_model`: prepend the system message when the history does not start
with one, invoke the tool-bound LLM, and append its response. -/
def call_model (env : GraphEnv) (s : F150State) : Update × List CallEvent :=
  let msgs :=
    match s.messages with
    | m :: _ => if m.isSystem then s.messages else .system f150SystemPrompt :: s.messages
    | [] => [.system f150SystemPrompt]
  ({ messages := [(env.complete msgs).toMsg] }, [.llmCall])

def dashes50 : String := ⟨List.replicate 50 '-'⟩

/-- The per-document blocks of the `search_f150_manual` tool
(`enumerate(results, 1)`). -/
def manualSections : Nat → List Document → List String
  | _, [] => []
  | i, d :: rest =>
    ("\n[Section " ++ toString i ++ " - Page " ++ d.pageStr ++ "]") ::
      pyStrip d.page_content :: dashes50 :: manualSections (i + 1) rest

/-- The `search_f150_manual` tool (`src/src/tools/manual_search.py`): a
similarity search with `k = 5` whose formatted excerpts are returned as the
tool result (this is the wired graph's retrieval path). -/
def search_f150_manual (env : GraphEnv) (question : String) : String × List CallEvent :=
  if ¬env.hasStore then
    ("Error: Manual not loaded. Please restart the application.", [])
  else
    let results := env.search question 5
    if results = [] then
      ("No relevant information found in the manual for this question.", [.indexCall])
    else
      (joinNl ("Here are the relevant sections from the F-150 Owner\x27s Manual:\n" ::
        manualSections 1 results), [.indexCall])

/-- The `search_web` tool (`src/src/tools/web_search.py`): its whole body —
Brave call plus error-to-text handling — is collaborator behaviour, observed
as the returned text. -/
def search_web (env : GraphEnv) (query : String) : String × List CallEvent :=
  (env.web query, [.webCall])

/-- One tool call dispatched by the prebuilt `ToolNode`; the result turn is
correlated by `tool_call_id`. -/
def runToolCall (env : GraphEnv) (tc : ToolCall) : Msg × List CallEvent :=
  if tc.name = "search_f150_manual" then
    let r := search_f150_manual env (tc.question.getD "")
    (.tool r.1 (tc.id.getD ""), r.2)
  else if tc.name = "search_web" then
    let r := search_web env (tc.query.getD "")
    (.tool r.1 (tc.id.getD ""), r.2)
  else
    (.tool ("Error: " ++ tc.name ++ " is not a valid tool.") (tc.id.getD ""), [])

/-- The `tools` node: execute every tool call of the last turn, one result
turn per call, in order. -/
def tools_node (env : GraphEnv) (s : F150State) : Update × List CallEvent :=
  let tcs := (s.messages.getLast?.map Msg.toolCalls).getD []
  let rs := tcs.map (runToolCall env)
  ({ messages := rs.map Prod.fst }, (rs.map Prod.snd).flatten)

/-- The agent ⇄ tools cycle of `create_f150_graph`, ending through the token
tracker.  `fuel` bounds the loop (LangGraph's recursion limit); the claims
settled here never exhaust it. -/
def runLoop (env : GraphEnv) (limit : Nat) : Nat → F150State → List CallEvent →
    F150State × List CallEvent
  | 0, s, ev => (s, ev)
  | fuel + 1, s, ev =>
    let cm := call_model env s
    let s1 := applyUpdate s cm.1
    match should_continue s1 with
    | .tools =>
      let tr := tools_node env s1
      runLoop env limit fuel (applyUpdate s1 tr.1) (ev ++ cm.2 ++ tr.2)
    | _ =>
      (applyUpdate s1 (token_tracking_node limit s1), ev ++ cm.2)

/-- One full turn of the compiled graph: START → pre_filter →
(END | agent ⇄ tools → token_tracker → END), with the collaborator calls it
makes.  `create_f150_graph` instantiates the pre-filter with domain name
`"2018 F-150"` and the token tracker with `Config.CONTEXT_LIMIT` (the
`warning_threshold=80.0` factory argument is never read by the node body). -/
def runTurn (env : GraphEnv) (limit fuel : Nat) (s : F150State) : F150State × List CallEvent :=
  let s1 := applyUpdate s (pre_filter_node "2018 F-150" s)
  match should_bypass_agent s1 with
  | .terminal => (s1, [])
  | _ => runLoop env limit fuel s1 []

/-! ## Multi-turn execution over the dual-context state

The dual-context nodes (`agentic_rag_node`, `chat_agent_node`,
`approval_node`) together with the shared pre-filter and token tracker act on
one thread's checkpointed state; a thread is a sequence of such node
applications interleaved with incoming user turns.  Oracle choices are
embedded in each step, so a step list ranges over every possible behaviour of
the external collaborators. -/

inductive TurnStep where
  | userTurn (content : String)
  | preFilterStep
  | chatStep (env : ChatEnv)
  | ragStep (env : RagEnv)
  | approvalStep (enabled : Bool) (decision : PyVal)
  | trackerStep (limit : Nat)

/-- Apply one step to the thread state (the pre-filter uses the deployed
domain name `"2018 F-150"`). -/
def stepState : TurnStep → F150State → F150State
  | .userTurn c, s => { s with messages := s.messages ++ [.human c] }
  | .preFilterStep, s => applyUpdate s (pre_filter_node "2018 F-150" s)
  | .chatStep env, s => applyUpdate s (chat_agent_node env s)
  | .ragStep env, s => applyUpdate s (agentic_rag_node env s)
  | .approvalStep e d, s => applyUpdate s (approval_node e d s)
  | .trackerStep l, s => applyUpdate s (token_tracking_node l s)

/-- Run a thread from a state. -/
def runSteps : List TurnStep → F150State → F150State
  | [], s => s
  | st :: rest, s => runSteps rest (stepState st s)

/-- Whether a string begins with the retrieval-context banner — true of every
non-empty `rag_context` the retrieval agent produces. -/
def hasMarker (s : String) : Bool := ragHeader.data.isPrefixOf s.data

/-- A step whose injected text is not a retrieval-context block: user turns
and completion-service responses do not begin with the context banner (the
remaining steps append only fixed texts and need no assumption). -/
def goodStep : TurnStep → Prop
  | .userTurn c => hasMarker c = false
  | .chatStep env => ∀ pm, hasMarker (env.complete pm).content = false
  | _ => True

/-- Invariant ensuring the transient context is never a persisted turn: no
logged turn begins with the context banner, while a non-empty `rag_context`
always does. -/
def noMarkerState (s : F150State) : Prop :=
  (∀ m ∈ s.messages, hasMarker m.content = false) ∧
    (s.rag_context = "" ∨ hasMarker s.rag_context = true)

/-! ## Spec-side definitions used by the claims -/

/-- The usage bands named by the spec: `<60%` none, `60-79%` informational,
`80-94%` warning, `>=95%` critical. -/
inductive Band where
  | quiet
  | informational
  | warning
  | critical
deriving DecidableEq, Repr

/-- Band classification written from the spec's words (real-valued
percentages: the integer band edges read as `[60,80)`, `[80,95)`, `[95,∞)`). -/
def bandOf (pct : ℚ) : Band :=
  if pct < 60 then .quiet
  else if pct < 80 then .informational
  else if pct < 95 then .warning
  else .critical

/-- The retrieval agent's possible tool-result contents: an error signal, the
explicit no-relevant-information signal, or the count-bearing acknowledgment. -/
def ragAckContent (c : String) : Prop :=
  c = noQueryError ∨ c = noStoreError ∨ c = noRelevantInfo ∨ ∃ n, c = retrievedAck n

/-- A concrete thread used to witness the multi-turn invariant: a user
question, a retrieval pass and a completion pass. -/
def witnessRagEnv : RagEnv where
  hasStore := true
  search := fun _ _ => [⟨"Fuse 33 powers the rear window wiper.", some 250⟩]
  llm := fun _ => .error ()

def witnessChatEnv : ChatEnv where
  complete := fun _ => ⟨"Fuse 33 is the rear wiper fuse (page 250).", [], {}⟩
  basePrompt := "You are an expert on the 2018 Ford F-150."

def witnessSteps : List TurnStep :=
  [.userTurn "What is fuse 33 for?",
   .ragStep witnessRagEnv,
   .chatStep witnessChatEnv,
   .trackerStep 1000]

/-- The pending tool calls of a state: those of the last turn, which is what
`should_continue` and the approval gate inspect. -/
def pendingToolCalls (s : F150State) : List ToolCall :=
  ((s.messages.getLast?).map Msg.toolCalls).getD []

/-- The relevance-filtered result of the first (reformulated-query) search
pass of `agentic_rag_node` — the quantity its fallback test inspects. -/
def ragFirstPass (env : RagEnv) (q : String) : List Document :=
  _assess_relevance env.llm (env.search (_reformulate_query env.llm q) 5) q

/-- A concrete retrieval environment whose first pass returns a single
document, forcing the fallback search. -/
def c6Env : RagEnv where
  hasStore := true
  search := fun _ k =>
    if k = 8 then [⟨"d1", some 1⟩, ⟨"d2", some 2⟩] else [⟨"d1", some 1⟩]
  llm := fun _ => Except.ok "reformed"

/-- A state holding one pending `search_f150_manual` call. -/
def c6State : F150State where
  messages := [.ai "a" [⟨"search_f150_manual", some "fuse 33", none, some "1"⟩] {}]

/-- A trivial wired-graph environment for witnessing the bypass path. -/
def c5Env : GraphEnv where
  complete := fun _ => ⟨"x", [], {}⟩
  search := fun _ _ => []
  web := fun _ => ""

/-- A thread whose only turn is a conversational thanks. -/
def c5State : F150State where
  messages := [.human "thanks!"]

/-! ## Helper lemmas -/

lemma hasMarker_of_head (s : String) (c : Char) (h : s.data.head? = some c)
    (hc : c ≠ '=') : hasMarker s = false := by
  unfold hasMarker
  match hd : s.data with
  | [] => rw [hd] at h; simp at h
  | c' :: t =>
    rw [hd] at h
    simp only [List.head?_cons, Option.some.injEq] at h
    subst h
    have hhead : ragHeader.data = '=' :: "== RETRIEVED CONTEXT FROM F-150 MANUAL ===\n".data := rfl
    rw [hhead]
    have hne : ('=' == c') = false := beq_eq_false_iff_ne.mpr fun h => hc h.symm
    simp [List.isPrefixOf, hne]

lemma head_append_lit (a b : String) (c : Char) (h : a.data.head? = some c) :
    (a ++ b).data.head? = some c := by
  rw [String.data_append]
  rw [List.head?_append_of_ne_nil]
  · exact h
  · intro hnil
    rw [hnil] at h
    simp at h

lemma hasMarker_retrievedAck (n : Nat) : hasMarker (retrievedAck n) = false := by
  apply hasMarker_of_head _ 'R'
  · unfold retrievedAck
    apply head_append_lit
    apply head_append_lit
    rfl
  · decide

lemma hasMarker_prepend_header (r : String) : hasMarker (ragHeader ++ r) = true := by
  unfold hasMarker
  rw [String.data_append]
  simp [List.isPrefixOf_iff_prefix]

lemma joinNl_cons_ne_nil (h : String) (t : List String) (ht : t ≠ []) :
    joinNl (h :: t) = h ++ "\n" ++ joinNl t := by
  cases t with
  | nil => exact absurd rfl ht
  | cons x xs => rfl

lemma hasMarker_format {docs : List Document} (h : docs ≠ []) :
    hasMarker (_format_rag_context docs) = true := by
  unfold _format_rag_context
  rw [if_neg h]
  rw [joinNl_cons_ne_nil]
  · rw [String.append_assoc]
    exact hasMarker_prepend_header _
  · cases hdocs : excerptBlocks 1 docs <;> simp

lemma getResp_mem (t : String) :
    get_conversational_response t ∈
      [respThank, respGreat, respOk, respHi, respHey, respBye, respYes,
       respNo, respDefault] := by
  unfold get_conversational_response
  dsimp only
  split_ifs <;> simp

lemma hasMarker_canned :
    ∀ r ∈ [respThank, respGreat, respOk, respHi, respHey, respBye, respYes,
           respNo, respDefault],
      hasMarker (customizeResponse "2018 F-150" r) = false := by decide

lemma hasMarker_criticalAdvisory (pct : ℚ) (rem : ℤ) :
    hasMarker (criticalAdvisory pct rem) = false := by
  apply hasMarker_of_head _ '⚠'
  · unfold criticalAdvisory
    apply head_append_lit
    apply head_append_lit
    rfl
  · decide

lemma hasMarker_warningAdvisory (pct : ℚ) (rem : ℤ) :
    hasMarker (warningAdvisory pct rem) = false := by
  apply hasMarker_of_head _ '⚠'
  · unfold warningAdvisory
    apply head_append_lit
    apply head_append_lit
    rfl
  · decide

lemma hasMarker_moderateAdvisory (pct : ℚ) (rem : ℤ) :
    hasMarker (moderateAdvisory pct rem) = false := by
  apply hasMarker_of_head _ 'ℹ'
  · unfold moderateAdvisory
    apply head_append_lit
    apply head_append_lit
    rfl
  · decide

lemma ragUpdate_shape (env : RagEnv) (s : F150State) :
    ∃ content tid,
      (agentic_rag_node env s).messages = [.tool content tid] ∧
      ragAckContent content ∧
      hasMarker content = false ∧
      ((agentic_rag_node env s).rag_context = some "" ∨
        ∃ docs, docs ≠ [] ∧
          (agentic_rag_node env s).rag_context = some (_format_rag_context docs) ∧
          (agentic_rag_node env s).retrieved_documents = some docs) ∧
      (agentic_rag_node env s).total_tokens = none ∧
      (agentic_rag_node env s).total_prompt_tokens = none ∧
      (agentic_rag_node env s).total_completion_tokens = none ∧
      (agentic_rag_node env s).context_limit = none ∧
      (agentic_rag_node env s).bypass_agent = none := by
  unfold agentic_rag_node agenticRagRun
  dsimp only
  split_ifs <;>
    first
      | exact ⟨noQueryError, _, rfl, Or.inl rfl, by decide, Or.inl rfl, rfl, rfl, rfl, rfl, rfl⟩
      | exact ⟨noStoreError, _, rfl, Or.inr (Or.inl rfl), by decide, Or.inl rfl, rfl, rfl, rfl,
          rfl, rfl⟩
      | exact ⟨noRelevantInfo, _, rfl, Or.inr (Or.inr (Or.inl rfl)), by decide, Or.inl rfl, rfl,
          rfl, rfl, rfl, rfl⟩
      | exact ⟨retrievedAck _, _, rfl, Or.inr (Or.inr (Or.inr ⟨_, rfl⟩)),
          hasMarker_retrievedAck _, Or.inr ⟨_, by assumption, rfl, rfl⟩, rfl, rfl, rfl, rfl, rfl⟩

lemma noMarker_apply (s : F150State) (u : Update) (hs : noMarkerState s)
    (hmsgs : ∀ m ∈ u.messages, hasMarker m.content = false)
    (hrc : u.rag_context = none ∨ u.rag_context = some "" ∨
      ∃ r, u.rag_context = some r ∧ hasMarker r = true) :
    noMarkerState (applyUpdate s u) := by
  constructor
  · intro m hm
    rcases List.mem_append.mp hm with hold | hnew
    · exact hs.1 m hold
    · exact hmsgs m hnew
  · rcases hrc with h | h | ⟨r, hr, hmk⟩
    · have heq : (applyUpdate s u).rag_context = s.rag_context := by
        simp [applyUpdate, h]
      rw [heq]; exact hs.2
    · have heq : (applyUpdate s u).rag_context = "" := by
        simp [applyUpdate, h]
      rw [heq]; exact Or.inl rfl
    · have heq : (applyUpdate s u).rag_context = r := by
        simp [applyUpdate, hr]
      rw [heq]; exact Or.inr hmk

lemma preFilter_update_shape (s : F150State) :
    ((pre_filter_node "2018 F-150" s).messages = [] ∨
      ∃ t, (pre_filter_node "2018 F-150" s).messages =
        [.ai (customizeResponse "2018 F-150" (get_conversational_response t)) [] {}]) ∧
    (pre_filter_node "2018 F-150" s).rag_context = none := by
  unfold pre_filter_node
  cases lastHuman s.messages with
  | none => exact ⟨Or.inl rfl, rfl⟩
  | some t =>
    dsimp only
    split_ifs
    · exact ⟨Or.inr ⟨t, rfl⟩, rfl⟩
    · exact ⟨Or.inl rfl, rfl⟩

lemma approval_update_shape (e : Bool) (d : PyVal) (s : F150State) :
    ((approval_node e d s).messages = [] ∨
      (approval_node e d s).messages = [.ai rejectionDirective [] {}]) ∧
    (approval_node e d s).rag_context = none := by
  unfold approval_node
  split_ifs <;>
    first
      | exact ⟨Or.inl rfl, rfl⟩
      | (cases s.messages.getLast? with
          | none => exact ⟨Or.inl rfl, rfl⟩
          | some last =>
            dsimp only
            split_ifs <;>
              first
                | exact ⟨Or.inl rfl, rfl⟩
                | exact ⟨Or.inr rfl, rfl⟩)

lemma hasMarker_of_getWarning {pct : ℚ} {rem : ℤ} {w : String}
    (h : _get_warning_message pct rem = some w) : hasMarker w = false := by
  unfold _get_warning_message at h
  split_ifs at h
  · simp only [Option.some.injEq] at h
    subst h
    exact hasMarker_criticalAdvisory _ _
  · simp only [Option.some.injEq] at h
    subst h
    exact hasMarker_warningAdvisory _ _
  · simp only [Option.some.injEq] at h
    subst h
    exact hasMarker_moderateAdvisory _ _

lemma tracker_update_shape (limit : Nat) (s : F150State) :
    (∀ m ∈ (token_tracking_node limit s).messages, hasMarker m.content = false) ∧
    (token_tracking_node limit s).rag_context = none := by
  unfold token_tracking_node
  cases lastAiMessage s.messages with
  | none => exact ⟨by intro m hm; simp [emptyUpdate] at hm, rfl⟩
  | some m =>
    dsimp only
    split_ifs
    · exact ⟨by intro m hm; simp [emptyUpdate] at hm, rfl⟩
    · constructor
      · intro m' hm'
        revert hm'
        rcases hgw : _get_warning_message _ _ with _ | w
        · intro hm'; simp at hm'
        · intro hm'
          simp only [List.mem_singleton] at hm'
          subst hm'
          exact hasMarker_of_getWarning hgw
      · rfl

lemma stepPreserves (st : TurnStep) (s : F150State) (hg : goodStep st)
    (hs : noMarkerState s) : noMarkerState (stepState st s) := by
  cases st with
  | userTurn c =>
    constructor
    · intro m hm
      rcases List.mem_append.mp hm with h | h
      · exact hs.1 m h
      · rw [List.mem_singleton] at h
        subst h
        exact hg
    · exact hs.2
  | preFilterStep =>
    apply noMarker_apply _ _ hs
    · intro m hm
      rcases (preFilter_update_shape s).1 with h | ⟨t, h⟩
      · rw [h] at hm; simp at hm
      · rw [h] at hm
        rw [List.mem_singleton] at hm
        subst hm
        exact hasMarker_canned _ (getResp_mem t)
    · exact Or.inl (preFilter_update_shape s).2
  | chatStep env =>
    apply noMarker_apply _ _ hs
    · intro m hm
      simp only [chat_agent_node, List.mem_singleton] at hm
      subst hm
      exact hg _
    · exact Or.inl rfl
  | ragStep env =>
    obtain ⟨content, tid, hmsg, hack, hmk, hrc, _⟩ := ragUpdate_shape env s
    apply noMarker_apply _ _ hs
    · intro m hm
      rw [hmsg] at hm
      rw [List.mem_singleton] at hm
      subst hm
      exact hmk
    · rcases hrc with h | ⟨docs, hd, h, _⟩
      · exact Or.inr (Or.inl h)
      · exact Or.inr (Or.inr ⟨_, h, hasMarker_format hd⟩)
  | approvalStep e d =>
    apply noMarker_apply _ _ hs
    · intro m hm
      rcases (approval_update_shape e d s).1 with h | h
      · rw [h] at hm; simp at hm
      · rw [h] at hm
        rw [List.mem_singleton] at hm
        subst hm
        decide
    · exact Or.inl (approval_update_shape e d s).2
  | trackerStep l =>
    apply noMarker_apply _ _ hs
    · exact (tracker_update_shape l s).1
    · exact Or.inl (tracker_update_shape l s).2

lemma runStepsPreserves (steps : List TurnStep) (s : F150State)
    (hg : ∀ st ∈ steps, goodStep st) (hs : noMarkerState s) :
    noMarkerState (runSteps steps s) := by
  induction steps generalizing s with
  | nil => exact hs
  | cons st rest ih =>
    exact ih (stepState st s) (fun x hx => hg x (List.mem_cons_of_mem st hx))
      (stepPreserves st s (hg st (List.mem_cons_self st rest)) hs)

/-- Claim C1: over every thread (any step sequence from the empty thread
state, assuming only that user turns and completion-service responses are not
themselves retrieval-context blocks), the transient retrieval context never
appears as an element of the persisted message list; the Retrieval Agent
appends only a short count-bearing acknowledgment tool-result turn and never
the formatted retrieved text; and the Orchestrator appends exactly the
assistant's response for the prompt into which `rag_context` was ephemerally
injected, touching no other channel. -/
theorem C1_rag_context_never_persisted
    (steps : List TurnStep) (hgood : ∀ st ∈ steps, goodStep st) :
    ((runSteps steps {}).rag_context ≠ "" →
      ∀ m ∈ (runSteps steps {}).messages,
        m.content ≠ (runSteps steps {}).rag_context) ∧
    (∀ env s, ∃ content tid,
      (agentic_rag_node env s).messages = [.tool content tid] ∧
      ragAckContent content ∧
      ∀ docs, docs ≠ [] → content ≠ _format_rag_context docs) ∧
    (∀ env s, chat_agent_node env s =
      { messages := [(env.complete
          (_build_chat_prompt s.messages s.rag_context env.basePrompt)).toMsg] }) := by
  refine ⟨?_, ?_, ?_⟩
  · have hinit : noMarkerState {} := by
      constructor
      · intro m hm
        simp [F150State.messages] at hm
      · exact Or.inl rfl
    have hinv := runStepsPreserves steps {} hgood hinit
    intro hne m hm heq
    have h1 := hinv.1 m hm
    rcases hinv.2 with h2 | h2
    · exact hne h2
    · rw [heq] at h1
      rw [h1] at h2
      exact Bool.false_ne_true h2
  · intro env s
    obtain ⟨content, tid, hmsg, hack, hmk, _⟩ := ragUpdate_shape env s
    refine ⟨content, tid, hmsg, hack, ?_⟩
    intro docs hd heq
    rw [heq, hasMarker_format hd] at hmk
    exact absurd hmk (by decide)
  · intro env s
    rfl

theorem C1_witness :
    (∀ st ∈ witnessSteps, goodStep st) ∧
    ((runSteps witnessSteps {}).rag_context ≠ "" →
      ∀ m ∈ (runSteps witnessSteps {}).messages,
        m.content ≠ (runSteps witnessSteps {}).rag_context) :=
  have hg : ∀ st ∈ witnessSteps, goodStep st := by
    intro st hst
    simp only [witnessSteps, List.mem_cons, List.not_mem_nil, or_false] at hst
    rcases hst with rfl | rfl | rfl | rfl
    · show hasMarker "What is fuse 33 for?" = false
      decide
    · trivial
    · intro pm
      show hasMarker "Fuse 33 is the rear wiper fuse (page 250)." = false
      decide
    · trivial
  ⟨hg, (C1_rag_context_never_persisted witnessSteps hg).1⟩

lemma applyUpdate_empty (s : F150State) : applyUpdate s emptyUpdate = s := by
  simp [applyUpdate, emptyUpdate]

lemma lastAiMessage_append_singleton (l : List Msg) (m : Msg) :
    lastAiMessage (l ++ [m]) =
      if m.isAi then some m else lastAiMessage l := by
  induction l with
  | nil =>
    simp only [List.nil_append]
    unfold lastAiMessage
    rfl
  | cons x xs ih =>
    show (match lastAiMessage (xs ++ [m]) with
      | some a => some a
      | none => if x.isAi then some x else none) = _
    rw [ih]
    cases hm : m.isAi <;> simp [hm, lastAiMessage]

/-- Claim C10: when the most recent assistant turn's metadata reports both
counts as zero, or carries no counts, or no assistant turn exists, the
Context Tracker returns the empty update — every counter and the message list
unchanged — so a genuine zero-token turn is indistinguishable from missing
metadata and never increments the totals. -/
theorem C10_zero_tokens_treated_as_unavailable (limit : Nat) (s : F150State) :
    (lastAiMessage s.messages = none → token_tracking_node limit s = emptyUpdate) ∧
    (∀ c tcs md, lastAiMessage s.messages = some (.ai c tcs md) →
      md.prompt_eval_count.getD 0 = 0 → md.eval_count.getD 0 = 0 →
      token_tracking_node limit s = emptyUpdate) ∧
    (∀ pre c tcs,
      token_tracking_node limit
          { s with messages := pre ++ [.ai c tcs ⟨some 0, some 0⟩] } =
        token_tracking_node limit
          { s with messages := pre ++ [.ai c tcs ⟨none, none⟩] }) ∧
    applyUpdate s emptyUpdate = s := by
  have hzero : ∀ (s' : F150State) c tcs md,
      lastAiMessage s'.messages = some (.ai c tcs md) →
      md.prompt_eval_count.getD 0 = 0 → md.eval_count.getD 0 = 0 →
      token_tracking_node limit s' = emptyUpdate := by
    intro s' c tcs md h hp he
    unfold token_tracking_node
    rw [h]
    dsimp only
    rw [hp, he]
    simp
  refine ⟨?_, hzero s, ?_, applyUpdate_empty s⟩
  · intro h
    unfold token_tracking_node
    rw [h]
  · intro pre c tcs
    have h1 := hzero { s with messages := pre ++ [.ai c tcs ⟨some 0, some 0⟩] }
      c tcs ⟨some 0, some 0⟩ (by rw [lastAiMessage_append_singleton]; rfl) rfl rfl
    have h2 := hzero { s with messages := pre ++ [.ai c tcs ⟨none, none⟩] }
      c tcs ⟨none, none⟩ (by rw [lastAiMessage_append_singleton]; rfl) rfl rfl
    rw [h1, h2]

theorem C10_witness :
    lastAiMessage
        ([Msg.human "What is fuse 33 for?", Msg.ai "answer" [] ⟨some 0, some 0⟩]) =
      some (Msg.ai "answer" [] ⟨some 0, some 0⟩) ∧
    token_tracking_node 1000
        ({ messages := [Msg.human "What is fuse 33 for?",
                        Msg.ai "answer" [] ⟨some 0, some 0⟩] } : F150State) =
      emptyUpdate :=
  ⟨by decide,
   (C10_zero_tokens_treated_as_unavailable 1000
      { messages := [Msg.human "What is fuse 33 for?",
                     Msg.ai "answer" [] ⟨some 0, some 0⟩] }).2.1
     "answer" [] ⟨some 0, some 0⟩ (by decide) rfl rfl⟩

/-- Claim C7: within a thread, the token counters never decrease across a
Context Tracker update (which either leaves them unchanged or adds the
per-turn counts), `total_tokens` equals
`total_prompt_tokens + total_completion_tokens` after every update, and the
advisory decision is recomputed from the updated `total_tokens` divided by
the context limit. -/
theorem C7_token_counters_monotone (limit : Nat) (s : F150State)
    (hsum : s.total_tokens = s.total_prompt_tokens + s.total_completion_tokens) :
    s.total_prompt_tokens ≤
        (applyUpdate s (token_tracking_node limit s)).total_prompt_tokens ∧
    s.total_completion_tokens ≤
        (applyUpdate s (token_tracking_node limit s)).total_completion_tokens ∧
    s.total_tokens ≤ (applyUpdate s (token_tracking_node limit s)).total_tokens ∧
    (applyUpdate s (token_tracking_node limit s)).total_tokens =
      (applyUpdate s (token_tracking_node limit s)).total_prompt_tokens +
        (applyUpdate s (token_tracking_node limit s)).total_completion_tokens ∧
    (∀ T, (token_tracking_node limit s).total_tokens = some T →
      (token_tracking_node limit s).messages =
        (match _get_warning_message (usagePercentage T limit)
            (remainingTokens T limit) with
          | some w => [.system w]
          | none => [])) := by
  unfold token_tracking_node
  cases h : lastAiMessage s.messages with
  | none =>
    refine ⟨?_, ?_, ?_, ?_, ?_⟩ <;>
      simp [applyUpdate, emptyUpdate, hsum]
  | some m =>
    dsimp only
    split_ifs with h0
    · refine ⟨?_, ?_, ?_, ?_, ?_⟩ <;>
        simp [applyUpdate, emptyUpdate, hsum]
    · refine ⟨?_, ?_, ?_, ?_, ?_⟩
      · simp [applyUpdate]
      · simp [applyUpdate]
      · simp only [applyUpdate, Option.getD_some]
        omega
      · simp [applyUpdate]
      · intro T hT
        simp only [Option.some.injEq] at hT
        subst hT
        rfl

theorem C7_witness :
    (({ messages := [Msg.ai "a" [] ⟨some 10, some 5⟩] } : F150State).total_tokens =
      ({ messages := [Msg.ai "a" [] ⟨some 10, some 5⟩] } : F150State).total_prompt_tokens +
        ({ messages := [Msg.ai "a" [] ⟨some 10, some 5⟩] } : F150State).total_completion_tokens) ∧
    ({ messages := [Msg.ai "a" [] ⟨some 10, some 5⟩] } : F150State).total_tokens ≤
      (applyUpdate { messages := [Msg.ai "a" [] ⟨some 10, some 5⟩] }
        (token_tracking_node 1000
          { messages := [Msg.ai "a" [] ⟨some 10, some 5⟩] })).total_tokens :=
  ⟨rfl,
   (C7_token_counters_monotone 1000
     { messages := [Msg.ai "a" [] ⟨some 10, some 5⟩] } rfl).2.2.1⟩

lemma getWarning_by_band (pct : ℚ) (rem : ℤ) :
    _get_warning_message pct rem =
      (match bandOf pct with
        | .quiet => none
        | .informational => some (moderateAdvisory pct rem)
        | .warning => some (warningAdvisory pct rem)
        | .critical => some (criticalAdvisory pct rem)) := by
  unfold _get_warning_message bandOf
  split_ifs <;> first | rfl | linarith

lemma bandOf_characterization (pct : ℚ) :
    (bandOf pct = .quiet ↔ pct < 60) ∧
    (bandOf pct = .informational ↔ 60 ≤ pct ∧ pct < 80) ∧
    (bandOf pct = .warning ↔ 80 ≤ pct ∧ pct < 95) ∧
    (bandOf pct = .critical ↔ 95 ≤ pct) := by
  unfold bandOf
  split_ifs with h1 h2 h3 <;>
    refine ⟨?_, ?_, ?_, ?_⟩ <;>
    simp <;>
    first
      | linarith
      | (rintro ⟨h4, h5⟩; linarith)
      | (intro h4; linarith)
      | (exact ⟨by linarith, by linarith⟩)

lemma tracker_messages_of_total (limit : Nat) (s : F150State) (T : Nat)
    (hT : (token_tracking_node limit s).total_tokens = some T) :
    (token_tracking_node limit s).messages =
      (match _get_warning_message (usagePercentage T limit)
          (remainingTokens T limit) with
        | some w => [.system w]
        | none => []) := by
  unfold token_tracking_node at *
  revert hT
  cases h : lastAiMessage s.messages with
  | none =>
    intro hT
    simp [emptyUpdate] at hT
  | some m =>
    intro hT
    dsimp only at hT ⊢
    split_ifs at hT ⊢ with h0
    · simp [emptyUpdate] at hT
    · simp only [Option.some.injEq] at hT
      subst hT
      rfl

lemma tracker_messages_length (limit : Nat) (s : F150State) :
    (token_tracking_node limit s).messages.length ≤ 1 := by
  unfold token_tracking_node
  cases h : lastAiMessage s.messages with
  | none => simp [emptyUpdate]
  | some m =>
    dsimp only
    split_ifs with h0
    · simp [emptyUpdate]
    · rcases _get_warning_message _ _ with _ | w <;> simp

/-- Claim C4: the Context Tracker classifies cumulative usage into the bands
`<60%` none, `[60,80)` informational, `[80,95)` warning, `≥95%` critical;
on a warning- or critical-band usage it injects the corresponding
system-level advisory turn; at most one advisory is injected per turn, and
at or above 95% the injected advisory is the critical one (whose text
differs from the warning advisory), not both. -/
theorem C4_band_classification_and_advisory (limit : Nat) (s : F150State)
    (pct : ℚ) (rem : ℤ) :
    (bandOf pct = .quiet ↔ pct < 60) ∧
    (bandOf pct = .informational ↔ 60 ≤ pct ∧ pct < 80) ∧
    (bandOf pct = .warning ↔ 80 ≤ pct ∧ pct < 95) ∧
    (bandOf pct = .critical ↔ 95 ≤ pct) ∧
    (bandOf pct = .warning →
      _get_warning_message pct rem = some (warningAdvisory pct rem)) ∧
    (bandOf pct = .critical →
      _get_warning_message pct rem = some (criticalAdvisory pct rem)) ∧
    criticalAdvisory pct rem ≠ warningAdvisory pct rem ∧
    (token_tracking_node limit s).messages.length ≤ 1 ∧
    (∀ T, (token_tracking_node limit s).total_tokens = some T →
      ((bandOf (usagePercentage T limit) = .warning →
        (token_tracking_node limit s).messages =
          [.system (warningAdvisory (usagePercentage T limit)
            (remainingTokens T limit))]) ∧
       (bandOf (usagePercentage T limit) = .critical →
        (token_tracking_node limit s).messages =
          [.system (criticalAdvisory (usagePercentage T limit)
            (remainingTokens T limit))]) ∧
       (bandOf (usagePercentage T limit) = .quiet →
        (token_tracking_node limit s).messages = []))) := by
  obtain ⟨hq, hi, hw, hc⟩ := bandOf_characterization pct
  refine ⟨hq, hi, hw, hc, ?_, ?_, ?_, tracker_messages_length limit s, ?_⟩
  · intro hb
    rw [getWarning_by_band, hb]
  · intro hb
    rw [getWarning_by_band, hb]
  · intro heq
    have hC : "⚠️ C".data <+: (criticalAdvisory pct rem).data := by
      unfold criticalAdvisory
      rw [String.data_append, String.data_append, List.append_assoc]
      exact List.IsPrefix.trans (by decide) (List.prefix_append _ _)
    have hW : "⚠️ W".data <+: (warningAdvisory pct rem).data := by
      unfold warningAdvisory
      rw [String.data_append, String.data_append, List.append_assoc]
      exact List.IsPrefix.trans (by decide) (List.prefix_append _ _)
    rw [heq] at hC
    have e1 := List.prefix_iff_eq_take.mp hC
    have e2 := List.prefix_iff_eq_take.mp hW
    rw [show ("⚠️ C" : String).data.length = 4 from by decide] at e1
    rw [show ("⚠️ W" : String).data.length = 4 from by decide] at e2
    exact absurd (e1.trans e2.symm) (by decide)
  · intro T hT
    have hm := tracker_messages_of_total limit s T hT
    refine ⟨?_, ?_, ?_⟩ <;> intro hb <;>
      rw [hm, getWarning_by_band, hb]

theorem C4_witness :
    (token_tracking_node 1000
        ({ messages := [Msg.ai "a" [] ⟨some 800, some 50⟩] } : F150State)).total_tokens =
      some 850 ∧
    bandOf (usagePercentage 850 1000) = Band.warning ∧
    (token_tracking_node 1000
        ({ messages := [Msg.ai "a" [] ⟨some 800, some 50⟩] } : F150State)).messages =
      [Msg.system (warningAdvisory (usagePercentage 850 1000)
        (remainingTokens 850 1000))] :=
  have hT : (token_tracking_node 1000
      ({ messages := [Msg.ai "a" [] ⟨some 800, some 50⟩] } : F150State)).total_tokens =
        some 850 := by decide
  have hband : bandOf (usagePercentage 850 1000) = Band.warning := by
    have hpct : usagePercentage 850 1000 = 85 := by unfold usagePercentage; norm_num
    rw [hpct]
    unfold bandOf
    norm_num
  ⟨hT, hband,
   ((C4_band_classification_and_advisory 1000
      { messages := [Msg.ai "a" [] ⟨some 800, some 50⟩] }
      (usagePercentage 850 1000)
      (remainingTokens 850 1000)).2.2.2.2.2.2.2.2 850 hT).1 hband⟩

/-- Claim C2 (amended): after the agent node, the Router sends control to the
tools node (the Tool Executor) exactly when the last turn has pending tool
calls, and to the Context Tracker otherwise; the compiled graph wires no
approval-gate node between them, and the routing decision is a pure,
deterministic function of the conversation state's message log alone. -/
theorem C2_router_after_agent (s : F150State) (c : String) (tcs : List ToolCall)
    (md : RespMeta) (hlast : s.messages.getLast? = some (.ai c tcs md)) :
    (should_continue s = .tools ↔ tcs ≠ []) ∧
    (should_continue s = .token_tracker ↔ tcs = []) ∧
    (should_continue s = .tools ∨ should_continue s = .token_tracker) ∧
    NodeId.approval_gate ∉ f150GraphNodes ∧
    (∀ s₁ s₂ : F150State, s₁.messages = s₂.messages →
      should_continue s₁ = should_continue s₂) := by
  have hsc : should_continue s =
      (if tcs ≠ [] then NodeId.tools else NodeId.token_tracker) := by
    unfold should_continue
    rw [hlast]
    rfl
  refine ⟨?_, ?_, ?_, by decide, ?_⟩
  · rw [hsc]
    by_cases h : tcs = [] <;> simp [h]
  · rw [hsc]
    by_cases h : tcs = [] <;> simp [h]
  · rw [hsc]
    by_cases h : tcs = [] <;> simp [h]
  · intro s₁ s₂ h
    unfold should_continue
    rw [h]

/-- Claim C2, counterexample to the claim as stated: on a state whose last
turn carries a pending tool call, the Router after the agent node routes to
the tools node, not to an approval gate, and `create_f150_graph` adds no
approval-gate node at all. -/
theorem C2_counterexample :
    should_continue
        ({ messages := [Msg.human "Any recalls?",
            Msg.ai "Let me search." [⟨"search_web", none, some "F-150 recalls", some "1"⟩]
              {}] } : F150State) =
      NodeId.tools ∧
    NodeId.tools ≠ NodeId.approval_gate ∧
    NodeId.approval_gate ∉ f150GraphNodes := by
  refine ⟨?_, by decide, by decide⟩
  decide

theorem C2_witness :
    ({ messages := [Msg.human "Any recalls?",
        Msg.ai "Let me search." [⟨"search_web", none, some "F-150 recalls", some "1"⟩]
          {}] } : F150State).messages.getLast? =
      some (Msg.ai "Let me search."
        [⟨"search_web", none, some "F-150 recalls", some "1"⟩] {}) ∧
    should_continue
        ({ messages := [Msg.human "Any recalls?",
            Msg.ai "Let me search." [⟨"search_web", none, some "F-150 recalls", some "1"⟩]
              {}] } : F150State) =
      NodeId.tools :=
  have h : ({ messages := [Msg.human "Any recalls?",
      Msg.ai "Let me search." [⟨"search_web", none, some "F-150 recalls", some "1"⟩]
        {}] } : F150State).messages.getLast? =
      some (Msg.ai "Let me search."
        [⟨"search_web", none, some "F-150 recalls", some "1"⟩] {}) := by decide
  ⟨h, (C2_router_after_agent _ _ _ _ h).1.mpr (by decide)⟩

lemma approval_enabled_eq (s : F150State) (decision : PyVal) (c : String)
    (tcs : List ToolCall) (md : RespMeta)
    (hlast : s.messages.getLast? = some (.ai c tcs md)) (hne : tcs ≠ []) :
    approval_node true decision s =
      (if isRejection decision then
        ({ messages := [.ai rejectionDirective [] {}] } : Update)
      else emptyUpdate) := by
  unfold approval_node
  rw [if_neg (by simp)]
  rw [hlast]
  dsimp only
  rw [if_neg]
  simp [Msg.isAi, Msg.toolCalls, hne]

/-- Claim C3: when the enabled Approval Gate receives a rejection decision
for a batch of K pending tool calls, it injects the directive turn telling
the Orchestrator to answer without tools, whose empty tool-call set
supersedes the whole batch in one state update: afterwards no call of the
batch is pending.  For any decision, the pending set after the gate is the
full original batch or empty — never a proper nonempty subset — so the batch
is handled atomically and never discarded silently. -/
theorem C3_rejection_atomic_with_directive
    (s : F150State) (c : String) (tcs : List ToolCall) (md : RespMeta)
    (hlast : s.messages.getLast? = some (.ai c tcs md)) (hne : tcs ≠ [])
    (decision : PyVal) :
    (isRejection decision = true →
      approval_node true decision s =
        ({ messages := [.ai rejectionDirective [] {}] } : Update) ∧
      pendingToolCalls (applyUpdate s (approval_node true decision s)) = []) ∧
    (isRejection decision = false →
      approval_node true decision s = emptyUpdate ∧
      pendingToolCalls (applyUpdate s (approval_node true decision s)) = tcs) ∧
    (pendingToolCalls (applyUpdate s (approval_node true decision s)) = tcs ∨
      pendingToolCalls (applyUpdate s (approval_node true decision s)) = []) := by
  have heq := approval_enabled_eq s decision c tcs md hlast hne
  cases hr : isRejection decision with
  | true =>
    rw [hr] at heq
    simp only [if_pos rfl] at heq
    have hpend : pendingToolCalls (applyUpdate s (approval_node true decision s)) = [] := by
      rw [heq]
      unfold pendingToolCalls
      show ((s.messages ++ [Msg.ai rejectionDirective [] {}]).getLast?.map
        Msg.toolCalls).getD [] = []
      rw [List.getLast?_concat]
      rfl
    exact ⟨fun _ => ⟨heq, hpend⟩, fun h => absurd h (by simp), Or.inr hpend⟩
  | false =>
    rw [hr] at heq
    simp only [Bool.false_eq_true, if_false] at heq
    have hpend : pendingToolCalls (applyUpdate s (approval_node true decision s)) = tcs := by
      rw [heq, applyUpdate_empty]
      unfold pendingToolCalls
      rw [hlast]
      rfl
    exact ⟨fun h => absurd h (by simp [hr]), fun _ => ⟨heq, hpend⟩, Or.inl hpend⟩

theorem C3_witness :
    ({ messages := [Msg.ai "a" [⟨"search_web", none, some "r", some "1"⟩, ⟨"search_f150_manual", some "r", none, some "2"⟩] {}] } : F150State).messages.getLast? = some (Msg.ai "a" [⟨"search_web", none, some "r", some "1"⟩, ⟨"search_f150_manual", some "r", none, some "2"⟩] {}) ∧
    isRejection (PyVal.dictApproved (some (.bool false))) = true ∧
    pendingToolCalls (applyUpdate { messages := [Msg.ai "a" [⟨"search_web", none, some "r", some "1"⟩, ⟨"search_f150_manual", some "r", none, some "2"⟩] {}] } (approval_node true (PyVal.dictApproved (some (.bool false))) { messages := [Msg.ai "a" [⟨"search_web", none, some "r", some "1"⟩, ⟨"search_f150_manual", some "r", none, some "2"⟩] {}] })) = [] :=
  have h : ({ messages := [Msg.ai "a" [⟨"search_web", none, some "r", some "1"⟩, ⟨"search_f150_manual", some "r", none, some "2"⟩] {}] } : F150State).messages.getLast? = some (Msg.ai "a" [⟨"search_web", none, some "r", some "1"⟩, ⟨"search_f150_manual", some "r", none, some "2"⟩] {}) := by decide
  ⟨h, by decide,
   ((C3_rejection_atomic_with_directive _ _ _ _ h (by decide)
      (PyVal.dictApproved (some (.bool false)))).1 (by decide)).2⟩

/-- Claim C9 (amended): a malformed approval decision supplied on resume —
any payload other than the explicit `False` or `{approved: False}` — is not
rejected as invalid input: the gate treats it exactly like an approval,
returning the empty update.  The thread state is indeed unchanged, but the
pending tool calls remain in place and flow on to execution.  (The reference
CLI keeps malformed input from reaching `resume` by re-prompting instead of
resuming.) -/
theorem C9_malformed_decision_passthrough
    (s : F150State) (decision : PyVal) (hmal : isRejection decision = false) :
    approval_node true decision s = emptyUpdate ∧
    applyUpdate s (approval_node true decision s) = s ∧
    pendingToolCalls (applyUpdate s (approval_node true decision s)) =
      pendingToolCalls s ∧
    approval_node true decision s = approval_node true (PyVal.prim (.bool true)) s := by
  have hempty : ∀ d : PyVal, isRejection d = false → approval_node true d s = emptyUpdate := by
    intro d hd
    unfold approval_node
    rw [if_neg (by simp)]
    cases s.messages.getLast? with
    | none => rfl
    | some last =>
      dsimp only
      split_ifs with h2 h3
      · rfl
      · rw [hd] at h3
        exact absurd h3 (by decide)
      · rfl
  have h1 := hempty decision hmal
  refine ⟨h1, ?_, ?_, ?_⟩
  · rw [h1, applyUpdate_empty]
  · rw [h1, applyUpdate_empty]
  · rw [h1, hempty (PyVal.prim (.bool true)) (by decide)]

/-- Claim C9, counterexample to the claim as stated: the malformed decision
payload `"maybe"` (neither an approval nor a well-formed rejection) is not
rejected as invalid input — the gate passes it through exactly like an
approval, the batch stays pending, and the spec's own post-approval routing
sends it on to the Tool Executor, so the pending tool calls do execute. -/
theorem C9_counterexample :
    isRejection (PyVal.prim (.str "maybe")) = false ∧
    approval_node true (PyVal.prim (.str "maybe")) ({ messages := [Msg.ai "a" [⟨"search_web", none, some "r", some "1"⟩] {}] } : F150State) = emptyUpdate ∧
    approval_node true (PyVal.prim (.str "maybe")) ({ messages := [Msg.ai "a" [⟨"search_web", none, some "r", some "1"⟩] {}] } : F150State) =
      approval_node true (PyVal.prim (.bool true)) ({ messages := [Msg.ai "a" [⟨"search_web", none, some "r", some "1"⟩] {}] } : F150State) ∧
    pendingToolCalls (applyUpdate { messages := [Msg.ai "a" [⟨"search_web", none, some "r", some "1"⟩] {}] } (approval_node true (PyVal.prim (.str "maybe")) { messages := [Msg.ai "a" [⟨"search_web", none, some "r", some "1"⟩] {}] })) =
      [⟨"search_web", none, some "r", some "1"⟩] ∧
    routeAfterApproval (applyUpdate { messages := [Msg.ai "a" [⟨"search_web", none, some "r", some "1"⟩] {}] } (approval_node true (PyVal.prim (.str "maybe")) { messages := [Msg.ai "a" [⟨"search_web", none, some "r", some "1"⟩] {}] })) =
      NodeId.tools := by
  refine ⟨by decide, by decide, by decide, by decide, by decide⟩

theorem C9_witness :
    isRejection (PyVal.prim (.str "maybe")) = false ∧
    applyUpdate ({ messages := [Msg.ai "a" [⟨"search_web", none, some "r", some "1"⟩] {}] } : F150State) (approval_node true (PyVal.prim (.str "maybe")) ({ messages := [Msg.ai "a" [⟨"search_web", none, some "r", some "1"⟩] {}] } : F150State)) =
      ({ messages := [Msg.ai "a" [⟨"search_web", none, some "r", some "1"⟩] {}] } : F150State) :=
  ⟨by decide,
   (C9_malformed_decision_passthrough
      { messages := [Msg.ai "a" [⟨"search_web", none, some "r", some "1"⟩] {}] }
      (PyVal.prim (.str "maybe")) (by decide)).2.1⟩

/-- Claim C6: in the Retrieval Agent the fallback search is issued exactly
when fewer than 2 relevant documents survive the first pass and the
reformulated query differs from the original; the single fallback call uses
the original query with `k = 8` and is followed by relevance filtering; no
fallback happens otherwise, it is never repeated, and at most two searches
are ever issued. -/
theorem C6_fallback_exactly_once (env : RagEnv) (s : F150State) (q : String)
    (hq : (_extract_rag_tool_call s.messages).1 = some q) (hne : q ≠ "")
    (hstore : env.hasStore = true) :
    ((agenticRagRun env s).2 =
      if (ragFirstPass env q).length < 2 ∧ _reformulate_query env.llm q ≠ q
      then [(_reformulate_query env.llm q, 5), (q, 8)]
      else [(_reformulate_query env.llm q, 5)]) ∧
    ((ragFirstPass env q).length < 2 ∧ _reformulate_query env.llm q ≠ q →
      (agentic_rag_node env s).retrieved_documents =
        some (_assess_relevance env.llm (env.search q 8) q)) ∧
    (¬((ragFirstPass env q).length < 2 ∧ _reformulate_query env.llm q ≠ q) →
      (agentic_rag_node env s).retrieved_documents = some (ragFirstPass env q)) ∧
    (agenticRagRun env s).2.length ≤ 2 := by
  have hq' : (_extract_rag_tool_call s.messages).1.getD "" = q := by rw [hq]; rfl
  unfold agentic_rag_node agenticRagRun
  dsimp only
  rw [hq', if_neg hne, if_neg (by simp [hstore])]
  simp only [ragFirstPass]
  by_cases hf : (_assess_relevance env.llm
      (env.search (_reformulate_query env.llm q) 5) q).length < 2 ∧
      _reformulate_query env.llm q ≠ q
  · simp only [if_pos hf]
    refine ⟨?_, fun _ => ?_, fun h => absurd hf h, ?_⟩
    · split_ifs <;> rfl
    · split_ifs with hrel
      · dsimp only
        rw [hrel]
      · rfl
    · split_ifs <;> simp
  · simp only [if_neg hf]
    refine ⟨?_, fun h => absurd h hf, fun _ => ?_, ?_⟩
    · split_ifs <;> rfl
    · split_ifs with hrel
      · dsimp only
        rw [hrel]
      · rfl
    · split_ifs <;> simp

theorem C6_witness :
    (_extract_rag_tool_call c6State.messages).1 = some "fuse 33" ∧
    "fuse 33" ≠ "" ∧
    c6Env.hasStore = true ∧
    (agenticRagRun c6Env c6State).2 = [("reformed", 5), ("fuse 33", 8)] :=
  ⟨by decide, by decide, rfl, by
    have h := (C6_fallback_exactly_once c6Env c6State "fuse 33"
      (by decide) (by decide) rfl).1
    rw [h, if_pos (by decide)]
    decide⟩

/-- Claim C8: reformulation and relevance-judgment failures are recovered
locally: an exception from the reformulation call — and equally an empty
cleaned response — leaves the original query in use; an exception from a
per-document relevance judgment includes that document in the accepted list
(which the final result truncates to five); and the retrieval node always
produces a tool-result turn, never aborting. -/
theorem C8_reformulation_and_relevance_fail_soft (env : RagEnv) (q : String)
    (docs : List Document) (d : Document) (s : F150State) :
    (env.llm (reformulationPrompt q) = .error () →
      _reformulate_query env.llm q = q) ∧
    (∀ r, env.llm (reformulationPrompt q) = .ok r →
      dropPreamble reformPreambles (stripChars r.data) = [] →
      _reformulate_query env.llm q = q) ∧
    (5 < docs.length → d ∈ docs.take 10 →
      env.llm (assessmentPrompt q (pyTake d.page_content 500)) = .error () →
      d ∈ acceptedDocs env.llm docs q) ∧
    (5 < docs.length →
      _assess_relevance env.llm docs q = (acceptedDocs env.llm docs q).take 5) ∧
    (∃ content tid, (agentic_rag_node env s).messages = [.tool content tid]) := by
  refine ⟨?_, ?_, ?_, ?_, ?_⟩
  · intro h
    unfold _reformulate_query
    rw [h]
  · intro r h hempty
    unfold _reformulate_query
    rw [h]
    dsimp only
    rw [hempty]
    rfl
  · intro _ hmem herr
    unfold acceptedDocs
    refine List.mem_filter.mpr ⟨hmem, ?_⟩
    unfold acceptDoc
    rw [herr]
  · intro hlen
    unfold _assess_relevance
    rw [if_neg, if_neg]
    · omega
    · intro h
      rw [h] at hlen
      simp at hlen
  · obtain ⟨content, tid, hmsg, -⟩ := ragUpdate_shape env s
    exact ⟨content, tid, hmsg⟩

theorem C8_witness :
    (Except.error () : Except Unit String) = Except.error () ∧
    _reformulate_query (fun _ => Except.error ()) "fuse 33" = "fuse 33" :=
  ⟨rfl,
   (C8_reformulation_and_relevance_fail_soft
      { hasStore := true, search := fun _ _ => [], llm := fun _ => Except.error () }
      "fuse 33" [] ⟨"d", none⟩ {}).1 rfl⟩

/-- Claim C5: for every input whose lower-cased, stripped text matches the
closed conversational taxonomy as a whole message, the Pre-Filter appends the
canned reply and sets `bypass_agent`, after which the Router ends the turn:
the turn makes no Completion Service, Retrieval Index or web call and the
final state is exactly the pre-filter result.  A substantive question that
merely contains a greeting word does not match. -/
theorem C5_conversational_bypass (env : GraphEnv) (limit fuel : Nat)
    (s : F150State) (t : String)
    (hlast : lastHuman s.messages = some t)
    (hconv : is_conversational_only t = true) :
    pre_filter_node "2018 F-150" s =
      { messages := [.ai (customizeResponse "2018 F-150"
          (get_conversational_response t)) [] {}],
        bypass_agent := some true } ∧
    should_bypass_agent (applyUpdate s (pre_filter_node "2018 F-150" s)) =
      NodeId.terminal ∧
    (runTurn env limit fuel s).2 = [] ∧
    (runTurn env limit fuel s).1 =
      applyUpdate s (pre_filter_node "2018 F-150" s) ∧
    is_conversational_only "hi, what is the towing capacity?" = false := by
  have h1 : pre_filter_node "2018 F-150" s =
      { messages := [.ai (customizeResponse "2018 F-150"
          (get_conversational_response t)) [] {}],
        bypass_agent := some true } := by
    unfold pre_filter_node
    rw [hlast]
    dsimp only
    rw [if_pos hconv]
  have hb : (applyUpdate s (pre_filter_node "2018 F-150" s)).bypass_agent = true := by
    rw [h1]
    rfl
  have h2 : should_bypass_agent (applyUpdate s (pre_filter_node "2018 F-150" s)) =
      NodeId.terminal := by
    unfold should_bypass_agent
    rw [hb]
    rfl
  refine ⟨h1, h2, ?_, ?_, by decide⟩
  · unfold runTurn
    dsimp only
    rw [h2]
  · unfold runTurn
    dsimp only
    rw [h2]

theorem C5_witness :
    lastHuman c5State.messages = some "thanks!" ∧
    is_conversational_only "thanks!" = true ∧
    (runTurn c5Env 1000 8 c5State).2 = [] :=
  have hl : lastHuman c5State.messages = some "thanks!" := by decide
  ⟨hl, by decide,
   (C5_conversational_bypass c5Env 1000 8 c5State "thanks!" hl (by decide)).2.2.1⟩
